import Mathlib

/-!
Shallow embedding of the loan lifecycle and interest-calculation core of the
`seashore_mf_be` repository (`app/loan_calculator.py` and the `Loan` model in
`app/models.py`).

Modelling conventions:
* Python `Decimal` values are modelled as exact rationals (`ℚ`); the source
  performs no explicit quantisation inside the core, so all arithmetic here is
  the exact counterpart of the source's arbitrary-precision decimals.
* `datetime.date` is modelled by the `Date` structure below; `timedelta`
  addition is day-by-day calendar rollover; `date.replace` raising
  `ValueError` when the day does not exist in the target month is modelled by
  returning `none`.
* Python methods that raise are modelled with `Except String`; methods of the
  `Loan` model additionally return the post-call in-memory object state, so
  that "no mutation before the error" is a provable statement.  An
  `Except.error` result means the exception propagated and `save()` never ran.
* Django model fields irrelevant to the claims (legacy mirror fields,
  guarantor/collateral text, loan_number) are omitted; timestamps are modelled
  at day granularity (`Date`), which is the granularity at which the source
  compares them.  Message strings keep the source's static text but elide the
  interpolated numeric amounts.
-/

deriving instance DecidableEq for Except

namespace Seashore

/-- Calendar date, mirroring `datetime.date` (proleptic Gregorian). -/
structure Date where
  year : Nat
  month : Nat
  day : Nat
deriving DecidableEq, Repr

/-- Gregorian leap-year rule used by `datetime`. -/
def isLeapYear (y : Nat) : Bool :=
  y % 4 == 0 && (y % 100 != 0 || y % 400 == 0)

/-- Number of days in a month, as `datetime` validates them. -/
def daysInMonth (y m : Nat) : Nat :=
  if m = 2 then (if isLeapYear y then 29 else 28)
  else if m = 4 ∨ m = 6 ∨ m = 9 ∨ m = 11 then 30
  else 31

/-- The day after `d` (calendar rollover), used to model `timedelta` addition. -/
def nextDay (d : Date) : Date :=
  if d.day < daysInMonth d.year d.month then ⟨d.year, d.month, d.day + 1⟩
  else if d.month < 12 then ⟨d.year, d.month + 1, 1⟩
  else ⟨d.year + 1, 1, 1⟩

/-- The day before `d` (calendar rollover), used to model `timedelta` subtraction. -/
def prevDay (d : Date) : Date :=
  if 1 < d.day then ⟨d.year, d.month, d.day - 1⟩
  else if 1 < d.month then ⟨d.year, d.month - 1, daysInMonth d.year (d.month - 1)⟩
  else ⟨d.year - 1, 12, 31⟩

/-- `d + timedelta(days=n)`. -/
def addDays (d : Date) : Nat → Date
  | 0 => d
  | n + 1 => addDays (nextDay d) n

/-- Strict `<` on dates, as `datetime.date` compares (lexicographic y, m, d). -/
def dateBefore (a b : Date) : Bool :=
  a.year < b.year ||
    (a.year == b.year && (a.month < b.month || (a.month == b.month && a.day < b.day)))

/-- One duration tier of `LoanCalculator.INTEREST_RATES`: an inclusive range
`lo-hi` (string key `"lo-hi"`), or an open-ended range (string key `"lo+"`,
encoded by `hi = none`), mapped to a monthly rate. -/
structure Tier where
  lo : Nat
  hi : Option Nat
  rate : ℚ
deriving DecidableEq, Repr

/-- `INTEREST_RATES['daily']`: 10% for 1-30 days, 8% for 31-90, 7% for 91-180, 6% for 181+. -/
def dailyTiers : List Tier :=
  [⟨1, some 30, 10/100⟩, ⟨31, some 90, 8/100⟩, ⟨91, some 180, 7/100⟩, ⟨181, none, 6/100⟩]

/-- `INTEREST_RATES['weekly']`: 9% for 1-12 weeks, 7% for 13-26, 6% for 27-52, 5% for 53+. -/
def weeklyTiers : List Tier :=
  [⟨1, some 12, 9/100⟩, ⟨13, some 26, 7/100⟩, ⟨27, some 52, 6/100⟩, ⟨53, none, 5/100⟩]

/-- `INTEREST_RATES['monthly']`: 8% for 1-3 months, 6% for 4-6, 5% for 7-12, 4% for 13+. -/
def monthlyTiers : List Tier :=
  [⟨1, some 3, 8/100⟩, ⟨4, some 6, 6/100⟩, ⟨7, some 12, 5/100⟩, ⟨13, none, 4/100⟩]

/-- `INTEREST_RATES['biweekly']`: 8% for 1-12 periods, 6% for 13-24, 5% for 25+. -/
def biweeklyTiers : List Tier :=
  [⟨1, some 12, 8/100⟩, ⟨13, some 24, 6/100⟩, ⟨25, none, 5/100⟩]

/-- The class-level `INTEREST_RATES` table, keyed by frequency. -/
def INTEREST_RATES (frequency : String) : Option (List Tier) :=
  if frequency = "daily" then some dailyTiers
  else if frequency = "weekly" then some weeklyTiers
  else if frequency = "monthly" then some monthlyTiers
  else if frequency = "biweekly" then some biweeklyTiers
  else none

/-- Whether tier `t`'s range contains `d`: `"lo+"` matches `lo ≤ d`,
`"lo-hi"` matches `lo ≤ d ≤ hi`. -/
def tierContains (t : Tier) (d : Nat) : Bool :=
  match t.hi with
  | none => t.lo ≤ d
  | some hi => t.lo ≤ d && d ≤ hi

/-- The tier-scanning loop of `get_interest_rate`: the first tier (in table
order) whose range contains the duration value wins. -/
def lookupTier : List Tier → Nat → Option ℚ
  | [], _ => none
  | t :: ts, d =>
    if tierContains t d then some t.rate
    else lookupTier ts d

/-- `list(tiers.values())[-1]`: the last tier's rate (the loop's fallback). -/
def lastRate (ts : List Tier) : ℚ :=
  (ts.map Tier.rate).getLastD 0

/-- `LoanCalculator.get_interest_rate`: raises `ValueError` for a frequency
outside the table; otherwise first matching tier's rate, defaulting to the
last tier's rate when no range matches. -/
def get_interest_rate (frequency : String) (durationValue : Nat) : Except String ℚ :=
  match INTEREST_RATES frequency with
  | none => .error ("Invalid frequency: " ++ frequency)
  | some tiers =>
    match lookupTier tiers durationValue with
    | some rate => .ok rate
    | none => .ok (lastRate tiers)

/-- `LoanCalculator.convert_to_months`: daily ÷ 30, weekly ÷ 4.33,
biweekly ÷ 2.17, monthly identity; unknown frequency falls back to the
duration value itself (`conversions.get` default). -/
def convert_to_months (frequency : String) (durationValue : Nat) : ℚ :=
  if frequency = "daily" then (durationValue : ℚ) / 30
  else if frequency = "weekly" then (durationValue : ℚ) / (433/100)
  else if frequency = "biweekly" then (durationValue : ℚ) / (217/100)
  else if frequency = "monthly" then (durationValue : ℚ)
  else (durationValue : ℚ)

/-- `LoanCalculator.calculate_next_payment_date`.  The monthly branch uses
`date.replace`, which raises `ValueError` (modelled as `none`) when the
current day-of-month does not exist in the target month; no clamping is
performed in the source. -/
def calculate_next_payment_date (current_date : Date) (frequency : String) : Option Date :=
  if frequency = "daily" then some (addDays current_date 1)
  else if frequency = "weekly" then some (addDays current_date 7)
  else if frequency = "biweekly" then some (addDays current_date 14)
  else if frequency = "monthly" then
    if current_date.month = 12 then
      -- current_date.replace(year=year+1, month=1)
      if current_date.day ≤ daysInMonth (current_date.year + 1) 1 then
        some ⟨current_date.year + 1, 1, current_date.day⟩
      else none
    else
      -- current_date.replace(month=month+1)
      if current_date.day ≤ daysInMonth current_date.year (current_date.month + 1) then
        some ⟨current_date.year, current_date.month + 1, current_date.day⟩
      else none
  else some (addDays current_date 30)

/-- `LoanCalculator.calculate_final_payment_date`.  The monthly branch adds
`duration_value` months and, when the day overflows the target month
(`ValueError` from `replace`), falls back to the last day of that month
(first day of the following month minus one day). -/
def calculate_final_payment_date (start_date : Date) (frequency : String)
    (duration_value : Nat) : Date :=
  if frequency = "daily" then addDays start_date duration_value
  else if frequency = "weekly" then addDays start_date (duration_value * 7)
  else if frequency = "biweekly" then addDays start_date (duration_value * 2 * 7)
  else if frequency = "monthly" then
    let months := duration_value
    let years := months / 12
    let remaining_months := months % 12
    let newYear0 := start_date.year + years
    let newMonth0 := start_date.month + remaining_months
    let newYear := if newMonth0 > 12 then newYear0 + 1 else newYear0
    let newMonth := if newMonth0 > 12 then newMonth0 - 12 else newMonth0
    if start_date.day ≤ daysInMonth newYear newMonth then
      ⟨newYear, newMonth, start_date.day⟩
    else
      if newMonth = 12 then prevDay ⟨newYear + 1, 1, 1⟩
      else prevDay ⟨newYear, newMonth + 1, 1⟩
  else addDays start_date (duration_value * 30)

/-- The dictionary returned by `LoanCalculator.calculate_loan`. -/
structure LoanCalc where
  principal_amount : ℚ
  monthly_interest_rate : ℚ
  annual_interest_rate : ℚ
  duration_value : Nat
  duration_months : ℚ
  repayment_frequency : String
  total_interest : ℚ
  total_repayment : ℚ
  installment_amount : ℚ
  number_of_installments : Nat
  first_payment_date : Date
  final_payment_date : Date
  outstanding_balance : ℚ
deriving DecidableEq, Repr

/-- `LoanCalculator.calculate_loan` (flat-rate computation).  `start_date` is
the explicit start date (the source defaults it to "today", an argument
here).  Raises on non-positive principal or duration, on an invalid
frequency (via `get_interest_rate`), and on month-end overflow of the first
payment date (via `calculate_next_payment_date`, monthly only). -/
def calculate_loan (principal_amount : ℚ) (frequency : String) (duration_value : Nat)
    (start_date : Date) : Except String LoanCalc :=
  if principal_amount ≤ 0 then .error "Principal amount must be greater than zero"
  else if duration_value = 0 then .error "Duration must be greater than zero"
  else
    match get_interest_rate frequency duration_value with
    | .error e => .error e
    | .ok monthly_rate =>
      let duration_months := convert_to_months frequency duration_value
      let total_interest := principal_amount * monthly_rate * duration_months
      let total_amount := principal_amount + total_interest
      let installment_amount := total_amount / (duration_value : ℚ)
      match calculate_next_payment_date start_date frequency with
      | none => .error "day is out of range for month"
      | some first_payment_date =>
        .ok {
          principal_amount := principal_amount
          monthly_interest_rate := monthly_rate
          annual_interest_rate := monthly_rate * 12 * 100
          duration_value := duration_value
          duration_months := duration_months
          repayment_frequency := frequency
          total_interest := total_interest
          total_repayment := total_amount
          installment_amount := installment_amount
          number_of_installments := duration_value
          first_payment_date := first_payment_date
          final_payment_date := calculate_final_payment_date start_date frequency duration_value
          outstanding_balance := total_amount }

/-- Django's `get_status_display()`: maps a status code to its display name
from `Loan.STATUS_CHOICES`; an unknown value is displayed as itself. -/
def statusDisplay (status : String) : String :=
  if status = "pending_approval" then "Pending Approval"
  else if status = "approved" then "Approved"
  else if status = "rejected" then "Rejected"
  else if status = "disbursed" then "Disbursed"
  else if status = "active" then "Active"
  else if status = "completed" then "Completed"
  else if status = "overdue" then "Overdue"
  else status

/-- The claim-relevant fields of the `Loan` Django model.  Legacy mirror
fields (`total_amount`, `interest_rate`, `loan_term`, `payment_frequency`)
and free-form text fields are omitted; actor references are opaque `Nat`
identifiers; nullable columns are `Option`. -/
structure LoanState where
  status : String
  principal_amount : ℚ
  repayment_frequency : String
  duration_value : Nat
  monthly_interest_rate : ℚ
  annual_interest_rate : ℚ
  duration_months : ℚ
  total_interest : ℚ
  total_repayment : ℚ
  installment_amount : ℚ
  number_of_installments : Nat
  amount_paid : ℚ
  outstanding_balance : ℚ
  amount_disbursed : ℚ
  first_repayment_date : Option Date
  final_repayment_date : Option Date
  next_repayment_date : Option Date
  approval_date : Option Date
  disbursement_date : Option Date
  completion_date : Option Date
  approved_by : Option Nat
  disbursed_by : Option Nat
  rejection_reason : Option String
deriving DecidableEq, Repr

/-- `Loan.calculate_loan_details`: runs `LoanCalculator.calculate_loan` with
`start_date = self.disbursement_date or timezone.now()` and copies the
calculated fields onto the record (`next_repayment_date` is initialised to
the first payment date).  An exception from the calculator propagates. -/
def calculate_loan_details (s : LoanState) (now : Date) : Except String LoanState :=
  match calculate_loan s.principal_amount s.repayment_frequency s.duration_value
      (s.disbursement_date.getD now) with
  | .error e => .error e
  | .ok c => .ok { s with
      monthly_interest_rate := c.monthly_interest_rate
      annual_interest_rate := c.annual_interest_rate
      duration_months := c.duration_months
      total_interest := c.total_interest
      total_repayment := c.total_repayment
      installment_amount := c.installment_amount
      number_of_installments := c.number_of_installments
      first_repayment_date := some c.first_payment_date
      final_repayment_date := some c.final_payment_date
      next_repayment_date := some c.first_payment_date }

/-- Creation of a `Loan` (`Loan.save` on a fresh record): field defaults
(`status='pending_approval'`, `amount_paid=0`, all nullable fields unset),
then `calculate_loan_details()` and `outstanding_balance = total_repayment`.
`now` is the creation time (`timezone.now()`). -/
def createLoan (principal : ℚ) (frequency : String) (duration_value : Nat)
    (now : Date) : Except String LoanState :=
  let s0 : LoanState := {
    status := "pending_approval"
    principal_amount := principal
    repayment_frequency := frequency
    duration_value := duration_value
    monthly_interest_rate := 0
    annual_interest_rate := 0
    duration_months := 0
    total_interest := 0
    total_repayment := 0
    installment_amount := 0
    number_of_installments := 0
    amount_paid := 0
    outstanding_balance := 0
    amount_disbursed := 0
    first_repayment_date := none
    final_repayment_date := none
    next_repayment_date := none
    approval_date := none
    disbursement_date := none
    completion_date := none
    approved_by := none
    disbursed_by := none
    rejection_reason := none }
  match calculate_loan_details s0 now with
  | .error e => .error e
  | .ok s1 => .ok { s1 with outstanding_balance := s1.total_repayment }

/-- The `(bool, message)` pair returned by `Loan.approve` / `Loan.reject`,
together with the post-call object state (unchanged on failure). -/
structure TransitionResult where
  ok : Bool
  message : String
  state : LoanState
deriving DecidableEq, Repr

/-- `Loan.approve(approved_by)`: only from `pending_approval`; on success sets
status, approver and approval timestamp. -/
def approve (s : LoanState) (approved_by : Nat) (now : Date) : TransitionResult :=
  if s.status ≠ "pending_approval" then
    ⟨false, "Cannot approve loan with status: " ++ statusDisplay s.status, s⟩
  else
    ⟨true, "Loan approved successfully",
      { s with status := "approved", approved_by := some approved_by,
               approval_date := some now }⟩

/-- `Loan.reject(rejection_reason)`: only from `pending_approval`; on success
sets status and stores the reason. -/
def reject (s : LoanState) (rejection_reason : String) : TransitionResult :=
  if s.status ≠ "pending_approval" then
    ⟨false, "Cannot reject loan with status: " ++ statusDisplay s.status, s⟩
  else
    ⟨true, "Loan rejected",
      { s with status := "rejected", rejection_reason := some rejection_reason }⟩

/-- `Loan.disburse(disbursed_by)`: only from `approved`.  Sets status to
`active`, records disburser/timestamp, `amount_disbursed = principal_amount`,
re-runs `calculate_loan_details` (now anchored to the just-set disbursement
date) and resets `outstanding_balance = total_repayment`.  The first
component is the returned `(bool, message)` pair, or the propagated
exception; the second is the post-call in-memory state (on the exception
path the four pre-calculation assignments have already landed but nothing is
saved). -/
def disburse (s : LoanState) (disbursed_by : Nat) (now : Date) :
    (Except String (Bool × String)) × LoanState :=
  if s.status ≠ "approved" then
    (.ok (false, "Only approved loans can be disbursed. Current status: " ++
      statusDisplay s.status), s)
  else
    let s1 := { s with status := "active", disbursed_by := some disbursed_by,
                       disbursement_date := some now,
                       amount_disbursed := s.principal_amount }
    match calculate_loan_details s1 now with
    | .error e => (.error e, s1)
    | .ok s2 => (.ok (true, "Loan disbursed successfully"),
        { s2 with outstanding_balance := s2.total_repayment })

/-- `Loan.record_repayment(amount)`: raises (before any mutation) unless the
status is `active`/`overdue` and `0 < amount ≤ outstanding_balance`; then
updates the payment tracking, advances `next_repayment_date` one period via
`LoanCalculator.calculate_next_payment_date` (which may raise, leaving the
in-memory tracking fields already mutated but nothing saved), applies the
`0.01` completion epsilon or the overdue check, and returns the new
outstanding balance.  `now` is `timezone.now()`. -/
def record_repayment (s : LoanState) (amount : ℚ) (now : Date) :
    (Except String ℚ) × LoanState :=
  if ¬ (s.status = "active" ∨ s.status = "overdue") then
    (.error ("Cannot record repayment for loan with status: " ++
      statusDisplay s.status), s)
  else if amount ≤ 0 then
    (.error "Repayment amount must be greater than zero", s)
  else if s.outstanding_balance < amount then
    (.error "Repayment amount exceeds outstanding balance", s)
  else
    let s1 := { s with amount_paid := s.amount_paid + amount,
                       outstanding_balance := s.outstanding_balance - amount }
    match calculate_next_payment_date (s1.next_repayment_date.getD now)
        s1.repayment_frequency with
    | none => (.error "day is out of range for month", s1)
    | some nd =>
      let s2 := { s1 with next_repayment_date := some nd }
      if s2.outstanding_balance ≤ (1/100 : ℚ) then
        let s3 := { s2 with outstanding_balance := 0, status := "completed",
                            completion_date := some now }
        (.ok s3.outstanding_balance, s3)
      else
        let s3 := if dateBefore nd now then { s2 with status := "overdue" }
                  else { s2 with status := "active" }
        (.ok s3.outstanding_balance, s3)

/-- The persisted-loan reachability relation: a state is reachable when it is
the result of creation or of one of the lifecycle operations applied to a
reachable state.  Exception paths (`Except.error`) are excluded: there
`save()` never runs, so no such state is persisted.  `approve`/`reject`
return normally even on guard failure (with the state unchanged), so their
results are always included. -/
inductive Reachable : LoanState → Prop
  | created (p : ℚ) (f : String) (dv : Nat) (now : Date) (s : LoanState) :
      createLoan p f dv now = .ok s → Reachable s
  | approved (s : LoanState) (a : Nat) (now : Date) :
      Reachable s → Reachable (approve s a now).state
  | rejected (s : LoanState) (r : String) :
      Reachable s → Reachable (reject s r).state
  | disbursed (s : LoanState) (a : Nat) (now : Date) (r : Bool × String)
      (s2 : LoanState) : Reachable s → disburse s a now = (.ok r, s2) →
      Reachable s2
  | repaid (s : LoanState) (amount : ℚ) (now : Date) (bal : ℚ)
      (s2 : LoanState) : Reachable s → record_repayment s amount now = (.ok bal, s2) →
      Reachable s2

/-- A `LoanState` with every field at its Django column default (used only as
the `getD` fallback when extracting states from `Except` values). -/
def defaultLoan : LoanState := {
  status := "pending_approval"
  principal_amount := 0
  repayment_frequency := "monthly"
  duration_value := 0
  monthly_interest_rate := 0
  annual_interest_rate := 0
  duration_months := 0
  total_interest := 0
  total_repayment := 0
  installment_amount := 0
  number_of_installments := 0
  amount_paid := 0
  outstanding_balance := 0
  amount_disbursed := 0
  first_repayment_date := none
  final_repayment_date := none
  next_repayment_date := none
  approval_date := none
  disbursement_date := none
  completion_date := none
  approved_by := none
  disbursed_by := none
  rejection_reason := none }

/-- A fixed calendar date used for concrete scenarios. -/
def sampleDate : Date := ⟨2025, 1, 1⟩

/-- A daily loan (₦50000, 30 days) created on 2025-01-01. -/
def sampleDaily : LoanState :=
  (createLoan 50000 "daily" 30 sampleDate).toOption.getD defaultLoan

/-- The daily sample loan after approval and disbursement on 2025-01-01
(status `active`, outstanding balance 55000). -/
def sampleDailyActive : LoanState :=
  (disburse (approve sampleDaily 7 sampleDate).state 8 sampleDate).2

/-- A monthly loan (₦50000, 12 months) created on 2024-12-31. -/
def sampleMonthly : LoanState :=
  (createLoan 50000 "monthly" 12 ⟨2024, 12, 31⟩).toOption.getD defaultLoan

/-- The monthly sample loan after approval on 2024-12-31. -/
def sampleMonthlyApproved : LoanState :=
  (approve sampleMonthly 7 ⟨2024, 12, 31⟩).state

/-- The monthly sample loan after disbursement on 2024-12-31: status `active`,
`next_repayment_date = 2025-01-31`, outstanding balance 80000. -/
def sampleMonthlyActive : LoanState :=
  (disburse sampleMonthlyApproved 8 ⟨2024, 12, 31⟩).2

/-- The balance/status invariant maintained by the loan lifecycle: payments
are non-negative and never exceed the total; the outstanding balance is the
exact remainder except after an epsilon-clamped completion, where it is 0 and
the true remainder is at most 0.01; and no money has been received while the
loan is still before disbursement. -/
def LoanInv (s : LoanState) : Prop :=
  0 ≤ s.amount_paid ∧ s.amount_paid ≤ s.total_repayment ∧
  (s.outstanding_balance = s.total_repayment - s.amount_paid ∨
    (s.status = "completed" ∧ s.outstanding_balance = 0 ∧
      s.total_repayment - s.amount_paid ≤ 1/100)) ∧
  ((s.status = "pending_approval" ∨ s.status = "approved" ∨ s.status = "rejected") →
    s.amount_paid = 0)

/-! ## Theorems -/

set_option maxRecDepth 100000
set_option maxHeartbeats 1000000

/-- C1: `calculate_next_payment_date` for monthly frequency does NOT clamp a
month-end overflow: on 2025-01-31 the underlying `date.replace` raises
`ValueError` (modelled `none`), contradicting the spec's "must not raise an
exception".  `calculate_final_payment_date` does clamp (2025-01-31 plus one
month gives 2025-02-28), and a December date does wrap to January of the
following year. -/
theorem next_payment_date_month_end_raises :
    calculate_next_payment_date ⟨2025, 1, 31⟩ "monthly" = none ∧
    calculate_final_payment_date ⟨2025, 1, 31⟩ "monthly" 1 = ⟨2025, 2, 28⟩ ∧
    calculate_next_payment_date ⟨2025, 12, 31⟩ "monthly" = some ⟨2026, 1, 31⟩ := by
  decide

/-- C8: the two concrete flat-rate scenarios.  `calculate_loan(50000, daily,
30)` gives monthly rate 0.10, one month duration, 5000 interest, 55000 total
and 55000/30 per installment; `calculate_loan(200000, monthly, 12)` gives
rate 0.05, 12 months, 120000 interest, 320000 total, 320000/12 per
installment and a 60% annual rate. -/
theorem calculate_loan_concrete_scenarios :
    (calculate_loan 50000 "daily" 30 sampleDate).map (fun c =>
        (c.monthly_interest_rate, c.duration_months, c.total_interest,
          c.total_repayment, c.installment_amount)) =
      .ok (10/100, 1, 5000, 55000, 55000/30) ∧
    (calculate_loan 200000 "monthly" 12 sampleDate).map (fun c =>
        (c.monthly_interest_rate, c.duration_months, c.total_interest,
          c.total_repayment, c.installment_amount, c.annual_interest_rate)) =
      .ok (5/100, 12, 120000, 320000, 320000/12, 60) := by
  refine ⟨?_, ?_⟩ <;>
    simp [calculate_loan, get_interest_rate, INTEREST_RATES, lookupTier, tierContains,
      dailyTiers, monthlyTiers, convert_to_months, calculate_next_payment_date,
      addDays, nextDay, daysInMonth, isLeapYear, sampleDate,
      calculate_final_payment_date, prevDay, Except.map, Prod.mk.injEq] <;> norm_num

/-- Evaluation of the freshly created daily sample loan. -/
theorem sampleDaily_eval : sampleDaily = {
    status := "pending_approval"
    principal_amount := 50000
    repayment_frequency := "daily"
    duration_value := 30
    monthly_interest_rate := 1/10
    annual_interest_rate := 120
    duration_months := 1
    total_interest := 5000
    total_repayment := 55000
    installment_amount := 5500/3
    number_of_installments := 30
    amount_paid := 0
    outstanding_balance := 55000
    amount_disbursed := 0
    first_repayment_date := some ⟨2025, 1, 2⟩
    final_repayment_date := some ⟨2025, 1, 31⟩
    next_repayment_date := some ⟨2025, 1, 2⟩
    approval_date := none
    disbursement_date := none
    completion_date := none
    approved_by := none
    disbursed_by := none
    rejection_reason := none } := by
  simp [sampleDaily, sampleDate, defaultLoan, createLoan,
    calculate_loan_details, calculate_loan, get_interest_rate, INTEREST_RATES,
    lookupTier, tierContains, dailyTiers, convert_to_months,
    calculate_next_payment_date, calculate_final_payment_date, addDays, nextDay,
    prevDay, daysInMonth, isLeapYear, Except.toOption]
  norm_num

/-- Evaluation of the daily sample loan after approval and disbursement on
2025-01-01. -/
theorem sampleDailyActive_eval : sampleDailyActive = {
    status := "active"
    principal_amount := 50000
    repayment_frequency := "daily"
    duration_value := 30
    monthly_interest_rate := 1/10
    annual_interest_rate := 120
    duration_months := 1
    total_interest := 5000
    total_repayment := 55000
    installment_amount := 5500/3
    number_of_installments := 30
    amount_paid := 0
    outstanding_balance := 55000
    amount_disbursed := 50000
    first_repayment_date := some ⟨2025, 1, 2⟩
    final_repayment_date := some ⟨2025, 1, 31⟩
    next_repayment_date := some ⟨2025, 1, 2⟩
    approval_date := some ⟨2025, 1, 1⟩
    disbursement_date := some ⟨2025, 1, 1⟩
    completion_date := none
    approved_by := some 7
    disbursed_by := some 8
    rejection_reason := none } := by
  rw [sampleDailyActive, sampleDaily_eval]
  simp [sampleDate, approve, disburse, calculate_loan_details,
    calculate_loan, get_interest_rate, INTEREST_RATES, lookupTier, tierContains,
    dailyTiers, convert_to_months, calculate_next_payment_date,
    calculate_final_payment_date, addDays, nextDay, prevDay, daysInMonth,
    isLeapYear, statusDisplay]
  norm_num

/-- Evaluation of the freshly created monthly sample loan. -/
theorem sampleMonthly_eval : sampleMonthly = {
    status := "pending_approval"
    principal_amount := 50000
    repayment_frequency := "monthly"
    duration_value := 12
    monthly_interest_rate := 1/20
    annual_interest_rate := 60
    duration_months := 12
    total_interest := 30000
    total_repayment := 80000
    installment_amount := 20000/3
    number_of_installments := 12
    amount_paid := 0
    outstanding_balance := 80000
    amount_disbursed := 0
    first_repayment_date := some ⟨2025, 1, 31⟩
    final_repayment_date := some ⟨2025, 12, 31⟩
    next_repayment_date := some ⟨2025, 1, 31⟩
    approval_date := none
    disbursement_date := none
    completion_date := none
    approved_by := none
    disbursed_by := none
    rejection_reason := none } := by
  simp [sampleMonthly, defaultLoan, createLoan,
    calculate_loan_details, calculate_loan, get_interest_rate, INTEREST_RATES,
    lookupTier, tierContains, monthlyTiers, convert_to_months,
    calculate_next_payment_date, calculate_final_payment_date, addDays, nextDay,
    prevDay, daysInMonth, isLeapYear, Except.toOption]
  norm_num

/-- Evaluation of the monthly sample loan after approval on 2024-12-31. -/
theorem sampleMonthlyApproved_eval : sampleMonthlyApproved = {
    status := "approved"
    principal_amount := 50000
    repayment_frequency := "monthly"
    duration_value := 12
    monthly_interest_rate := 1/20
    annual_interest_rate := 60
    duration_months := 12
    total_interest := 30000
    total_repayment := 80000
    installment_amount := 20000/3
    number_of_installments := 12
    amount_paid := 0
    outstanding_balance := 80000
    amount_disbursed := 0
    first_repayment_date := some ⟨2025, 1, 31⟩
    final_repayment_date := some ⟨2025, 12, 31⟩
    next_repayment_date := some ⟨2025, 1, 31⟩
    approval_date := some ⟨2024, 12, 31⟩
    disbursement_date := none
    completion_date := none
    approved_by := some 7
    disbursed_by := none
    rejection_reason := none } := by
  rw [sampleMonthlyApproved, sampleMonthly_eval]
  norm_num [approve, statusDisplay]

/-- Evaluation of the monthly sample loan after disbursement on 2024-12-31:
active, with `next_repayment_date = 2025-01-31`. -/
theorem sampleMonthlyActive_eval : sampleMonthlyActive = {
    status := "active"
    principal_amount := 50000
    repayment_frequency := "monthly"
    duration_value := 12
    monthly_interest_rate := 1/20
    annual_interest_rate := 60
    duration_months := 12
    total_interest := 30000
    total_repayment := 80000
    installment_amount := 20000/3
    number_of_installments := 12
    amount_paid := 0
    outstanding_balance := 80000
    amount_disbursed := 50000
    first_repayment_date := some ⟨2025, 1, 31⟩
    final_repayment_date := some ⟨2025, 12, 31⟩
    next_repayment_date := some ⟨2025, 1, 31⟩
    approval_date := some ⟨2024, 12, 31⟩
    disbursement_date := some ⟨2024, 12, 31⟩
    completion_date := none
    approved_by := some 7
    disbursed_by := some 8
    rejection_reason := none } := by
  rw [sampleMonthlyActive, sampleMonthlyApproved_eval]
  simp [disburse, calculate_loan_details, calculate_loan, get_interest_rate,
    INTEREST_RATES, lookupTier, tierContains, monthlyTiers, convert_to_months,
    calculate_next_payment_date, calculate_final_payment_date, addDays, nextDay,
    prevDay, daysInMonth, isLeapYear, statusDisplay]
  norm_num

/-- C2 counterexample: on the active daily sample loan (total_repayment
55000, amount_paid 0) a successful repayment of 54999.99 leaves a residual
of 0.01, which the completion epsilon clamps to an outstanding balance of
exactly 0 while `amount_paid` keeps its raw value — so
`outstanding_balance = total_repayment - amount_paid` fails (0 versus
0.01) after the clamping repayment. -/
theorem repayment_epsilon_breaks_identity :
    sampleDailyActive.status = "active" ∧
    sampleDailyActive.outstanding_balance =
      sampleDailyActive.total_repayment - sampleDailyActive.amount_paid ∧
    (record_repayment sampleDailyActive (5499999/100) sampleDate).1 = .ok 0 ∧
    (record_repayment sampleDailyActive (5499999/100) sampleDate).2.outstanding_balance ≠
      (record_repayment sampleDailyActive (5499999/100) sampleDate).2.total_repayment -
      (record_repayment sampleDailyActive (5499999/100) sampleDate).2.amount_paid := by
  rw [sampleDailyActive_eval]
  norm_num [sampleDate, record_repayment, calculate_next_payment_date, addDays,
    nextDay, daysInMonth, isLeapYear, dateBefore, statusDisplay]

/-- C3 counterexample: the monthly sample loan is active with
`next_repayment_date = 2025-01-31` and outstanding balance 80000, yet a
perfectly valid repayment of 1000 does not perform the claimed update — it
raises, because advancing 2025-01-31 by one month goes through
`date.replace(month=2)` which has no day 31. -/
theorem record_repayment_month_end_raises :
    sampleMonthlyActive.status = "active" ∧
    (0 : ℚ) < 1000 ∧ (1000 : ℚ) ≤ sampleMonthlyActive.outstanding_balance ∧
    (record_repayment sampleMonthlyActive 1000 ⟨2025, 1, 31⟩).1 =
      .error "day is out of range for month" := by
  rw [sampleMonthlyActive_eval]
  norm_num [record_repayment, calculate_next_payment_date, daysInMonth,
    isLeapYear, dateBefore, statusDisplay,
    (by decide : ("monthly" : String) ≠ "daily"),
    (by decide : ("monthly" : String) ≠ "weekly"),
    (by decide : ("monthly" : String) ≠ "biweekly")]

/-- C6 counterexample: disbursing the approved monthly sample loan on
2025-01-31 does not produce an active loan — the re-run of the loan
calculation raises while computing the first payment date (2025-01-31 plus
one month), so `disburse` propagates an exception instead of returning
success. -/
theorem disburse_month_end_raises :
    sampleMonthlyApproved.status = "approved" ∧
    (disburse sampleMonthlyApproved 9 ⟨2025, 1, 31⟩).1 =
      .error "day is out of range for month" := by
  rw [sampleMonthlyApproved_eval]
  norm_num [disburse, calculate_loan_details, calculate_loan, get_interest_rate,
    INTEREST_RATES, lookupTier, tierContains, monthlyTiers, convert_to_months,
    calculate_next_payment_date, daysInMonth, isLeapYear, statusDisplay,
    (by decide : ("monthly" : String) ≠ "daily"),
    (by decide : ("monthly" : String) ≠ "weekly"),
    (by decide : ("monthly" : String) ≠ "biweekly")]

/-- C4: `approve` and `reject` from any status other than `pending_approval`,
and `disburse` from any status other than `approved`, return a failure with a
human-readable reason and leave the loan state completely unchanged. -/
theorem transition_guards_no_mutation (s : LoanState) (a : Nat) (r : String) (d : Date) :
    (s.status ≠ "pending_approval" →
      approve s a d =
        ⟨false, "Cannot approve loan with status: " ++ statusDisplay s.status, s⟩) ∧
    (s.status ≠ "pending_approval" →
      reject s r =
        ⟨false, "Cannot reject loan with status: " ++ statusDisplay s.status, s⟩) ∧
    (s.status ≠ "approved" →
      disburse s a d = (.ok (false, "Only approved loans can be disbursed. Current status: " ++
        statusDisplay s.status), s)) := by
  refine ⟨fun h => ?_, fun h => ?_, fun h => ?_⟩ <;> simp [approve, reject, disburse, h]

/-- Witness for C4: rejecting (or approving/disbursing) the active daily
sample loan fails with no change to any field, in particular to
`rejection_reason`. -/
theorem transition_guards_no_mutation_witness :
    approve sampleDailyActive 1 sampleDate =
      ⟨false, "Cannot approve loan with status: " ++ statusDisplay sampleDailyActive.status,
        sampleDailyActive⟩ ∧
    reject sampleDailyActive "bad" =
      ⟨false, "Cannot reject loan with status: " ++ statusDisplay sampleDailyActive.status,
        sampleDailyActive⟩ ∧
    disburse sampleDailyActive 1 sampleDate =
      (.ok (false, "Only approved loans can be disbursed. Current status: " ++
        statusDisplay sampleDailyActive.status), sampleDailyActive) := by
  have h := transition_guards_no_mutation sampleDailyActive 1 "bad" sampleDate
  exact ⟨h.1 (by rw [sampleDailyActive_eval]; decide),
    h.2.1 (by rw [sampleDailyActive_eval]; decide),
    h.2.2 (by rw [sampleDailyActive_eval]; decide)⟩

/-- C5: `record_repayment` with a non-positive amount, an amount exceeding the
outstanding balance, or a status outside active/overdue raises before any
mutation: the returned in-memory state is exactly the input state. -/
theorem record_repayment_rejects_invalid (s : LoanState) (amount : ℚ) (now : Date)
    (h : ¬(s.status = "active" ∨ s.status = "overdue") ∨ amount ≤ 0 ∨
      s.outstanding_balance < amount) :
    ∃ e, record_repayment s amount now = (.error e, s) := by
  unfold record_repayment
  by_cases h1 : s.status = "active" ∨ s.status = "overdue"
  · rw [if_neg (not_not_intro h1)]
    by_cases h2 : amount ≤ 0
    · rw [if_pos h2]; exact ⟨_, rfl⟩
    · rw [if_neg h2]
      have h3 : s.outstanding_balance < amount := by
        rcases h with h | h | h
        · exact absurd h1 h
        · exact absurd h h2
        · exact h
      rw [if_pos h3]; exact ⟨_, rfl⟩
  · rw [if_pos h1]; exact ⟨_, rfl⟩

/-- Witness for C5: a repayment on the (pending) daily sample loan fails and
leaves the state untouched. -/
theorem record_repayment_rejects_invalid_witness :
    ∃ e, record_repayment sampleDaily 10 sampleDate = (.error e, sampleDaily) :=
  record_repayment_rejects_invalid sampleDaily 10 sampleDate
    (Or.inl (by rw [sampleDaily_eval]; decide))

/-- Closed form of the daily tier lookup for positive durations. -/
theorem gir_daily_char (d : Nat) (hd : 0 < d) :
    get_interest_rate "daily" d =
      .ok (if d ≤ 30 then 10/100 else if d ≤ 90 then 8/100
           else if d ≤ 180 then 7/100 else 6/100) := by
  norm_num [get_interest_rate, INTEREST_RATES, dailyTiers, lookupTier, tierContains,
    lastRate]
  split_ifs <;> first | rfl | omega

/-- Closed form of the weekly tier lookup for positive durations. -/
theorem gir_weekly_char (d : Nat) (hd : 0 < d) :
    get_interest_rate "weekly" d =
      .ok (if d ≤ 12 then 9/100 else if d ≤ 26 then 7/100
           else if d ≤ 52 then 6/100 else 5/100) := by
  norm_num [get_interest_rate, INTEREST_RATES, weeklyTiers, lookupTier, tierContains,
    lastRate, (by decide : ("weekly" : String) ≠ "daily")]
  split_ifs <;> first | rfl | omega

/-- Closed form of the monthly tier lookup for positive durations. -/
theorem gir_monthly_char (d : Nat) (hd : 0 < d) :
    get_interest_rate "monthly" d =
      .ok (if d ≤ 3 then 8/100 else if d ≤ 6 then 6/100
           else if d ≤ 12 then 5/100 else 4/100) := by
  norm_num [get_interest_rate, INTEREST_RATES, monthlyTiers, lookupTier, tierContains,
    lastRate, (by decide : ("monthly" : String) ≠ "daily"),
    (by decide : ("monthly" : String) ≠ "weekly")]
  split_ifs <;> first | rfl | omega

/-- Closed form of the biweekly tier lookup for positive durations. -/
theorem gir_biweekly_char (d : Nat) (hd : 0 < d) :
    get_interest_rate "biweekly" d =
      .ok (if d ≤ 12 then 8/100 else if d ≤ 24 then 6/100 else 5/100) := by
  norm_num [get_interest_rate, INTEREST_RATES, biweeklyTiers, lookupTier, tierContains,
    lastRate, (by decide : ("biweekly" : String) ≠ "daily"),
    (by decide : ("biweekly" : String) ≠ "weekly"),
    (by decide : ("biweekly" : String) ≠ "monthly")]
  split_ifs <;> first | rfl | omega

/-- C7: for valid frequencies the first matching tier (with open-ended top
tier) determines the monthly rate — spelled out for `daily` — the lookup
never fails for a valid frequency (the last tier's rate is the fallback),
and any frequency outside the four raises `Invalid frequency`. -/
theorem interest_rate_tier_lookup :
    (∀ d : Nat, 0 < d → get_interest_rate "daily" d =
      .ok (if d ≤ 30 then 10/100 else if d ≤ 90 then 8/100
           else if d ≤ 180 then 7/100 else 6/100)) ∧
    (∀ (f : String) (d : Nat),
      ¬(f = "daily" ∨ f = "weekly" ∨ f = "monthly" ∨ f = "biweekly") →
      get_interest_rate f d = .error ("Invalid frequency: " ++ f)) ∧
    (∀ (f : String) (d : Nat),
      (f = "daily" ∨ f = "weekly" ∨ f = "monthly" ∨ f = "biweekly") →
      ∃ r, get_interest_rate f d = .ok r) := by
  refine ⟨gir_daily_char, fun f d hf => ?_, fun f d hf => ?_⟩
  · push_neg at hf
    obtain ⟨h1, h2, h3, h4⟩ := hf
    simp [get_interest_rate, INTEREST_RATES, h1, h2, h3, h4]
  · have hts : ∃ ts, INTEREST_RATES f = some ts := by
      rcases hf with rfl | rfl | rfl | rfl
      · refine ⟨dailyTiers, ?_⟩; simp [INTEREST_RATES]
      · refine ⟨weeklyTiers, ?_⟩; simp [INTEREST_RATES]
      · refine ⟨monthlyTiers, ?_⟩; simp [INTEREST_RATES]
      · refine ⟨biweeklyTiers, ?_⟩; simp [INTEREST_RATES]
    obtain ⟨ts, hts⟩ := hts
    simp only [get_interest_rate, hts]
    cases h : lookupTier ts d
    · exact ⟨_, rfl⟩
    · exact ⟨_, rfl⟩

/-- Witness for C7: instantiations at duration 31 (daily), an invalid
frequency `yearly`, and `biweekly`. -/
theorem interest_rate_tier_lookup_witness :
    get_interest_rate "daily" 31 =
      .ok (if 31 ≤ 30 then 10/100 else if 31 ≤ 90 then 8/100
           else if 31 ≤ 180 then 7/100 else 6/100) ∧
    get_interest_rate "yearly" 5 = .error ("Invalid frequency: " ++ "yearly") ∧
    ∃ r, get_interest_rate "biweekly" 9 = .ok r := by
  have h := interest_rate_tier_lookup
  exact ⟨h.1 31 (by decide), h.2.1 "yearly" 5 (by decide),
    h.2.2 "biweekly" 9 (by decide)⟩

/-- C9: for each valid frequency the looked-up monthly rate is non-increasing
in the duration value, over all positive durations. -/
theorem interest_rate_monotone (f : String) (d1 d2 : Nat)
    (hf : f = "daily" ∨ f = "weekly" ∨ f = "monthly" ∨ f = "biweekly")
    (h1 : 0 < d1) (hle : d1 ≤ d2) (r1 r2 : ℚ)
    (e1 : get_interest_rate f d1 = .ok r1) (e2 : get_interest_rate f d2 = .ok r2) :
    r2 ≤ r1 := by
  have h2 : 0 < d2 := lt_of_lt_of_le h1 hle
  rcases hf with rfl | rfl | rfl | rfl
  · rw [gir_daily_char d1 h1] at e1
    rw [gir_daily_char d2 h2] at e2
    simp only [Except.ok.injEq] at e1 e2
    subst e1; subst e2
    split_ifs <;> norm_num <;> omega
  · rw [gir_weekly_char d1 h1] at e1
    rw [gir_weekly_char d2 h2] at e2
    simp only [Except.ok.injEq] at e1 e2
    subst e1; subst e2
    split_ifs <;> norm_num <;> omega
  · rw [gir_monthly_char d1 h1] at e1
    rw [gir_monthly_char d2 h2] at e2
    simp only [Except.ok.injEq] at e1 e2
    subst e1; subst e2
    split_ifs <;> norm_num <;> omega
  · rw [gir_biweekly_char d1 h1] at e1
    rw [gir_biweekly_char d2 h2] at e2
    simp only [Except.ok.injEq] at e1 e2
    subst e1; subst e2
    split_ifs <;> norm_num <;> omega

/-- Witness for C9: the daily rate at duration 200 is below the rate at
duration 1. -/
theorem interest_rate_monotone_witness : (6 : ℚ)/100 ≤ 10/100 :=
  interest_rate_monotone "daily" 1 200 (Or.inl rfl) (by decide) (by decide)
    (10/100) (6/100)
    (by rw [gir_daily_char 1 (by decide)]; norm_num)
    (by rw [gir_daily_char 200 (by decide)]; norm_num)

/-- A rate found by the tier scan is one of the tiers' rates. -/
theorem lookupTier_nonneg (ts : List Tier) (dv : Nat) (r : ℚ)
    (hall : ∀ t ∈ ts, 0 ≤ t.rate) (h : lookupTier ts dv = some r) : 0 ≤ r := by
  induction ts with
  | nil => simp [lookupTier] at h
  | cons t ts ih =>
    simp only [lookupTier] at h
    split_ifs at h with hc
    · cases h
      exact hall t (by simp)
    · exact ih (fun u hu => hall u (by simp [hu])) h

/-- Every rate returned by `get_interest_rate` is non-negative. -/
theorem rate_nonneg {f : String} {dv : Nat} {r : ℚ}
    (h : get_interest_rate f dv = .ok r) : 0 ≤ r := by
  unfold get_interest_rate at h
  revert h
  unfold INTEREST_RATES
  split_ifs <;> intro h
  · cases hl : lookupTier dailyTiers dv <;> simp only [hl] at h
    · rw [Except.ok.injEq] at h; subst h; norm_num [lastRate, dailyTiers]
    · rw [Except.ok.injEq] at h; subst h
      exact lookupTier_nonneg dailyTiers dv _ (by norm_num [dailyTiers]) hl
  · cases hl : lookupTier weeklyTiers dv <;> simp only [hl] at h
    · rw [Except.ok.injEq] at h; subst h; norm_num [lastRate, weeklyTiers]
    · rw [Except.ok.injEq] at h; subst h
      exact lookupTier_nonneg weeklyTiers dv _ (by norm_num [weeklyTiers]) hl
  · cases hl : lookupTier monthlyTiers dv <;> simp only [hl] at h
    · rw [Except.ok.injEq] at h; subst h; norm_num [lastRate, monthlyTiers]
    · rw [Except.ok.injEq] at h; subst h
      exact lookupTier_nonneg monthlyTiers dv _ (by norm_num [monthlyTiers]) hl
  · cases hl : lookupTier biweeklyTiers dv <;> simp only [hl] at h
    · rw [Except.ok.injEq] at h; subst h; norm_num [lastRate, biweeklyTiers]
    · rw [Except.ok.injEq] at h; subst h
      exact lookupTier_nonneg biweeklyTiers dv _ (by norm_num [biweeklyTiers]) hl
  · simp at h

/-- Month-normalised durations are never negative. -/
theorem convert_to_months_nonneg (f : String) (dv : Nat) :
    0 ≤ convert_to_months f dv := by
  unfold convert_to_months
  split_ifs <;> positivity

/-- Success shape of `calculate_loan`: when the guards pass, the rate lookup
succeeds and the first payment date exists, the result is the flat-rate
record computed from them. -/
theorem calculate_loan_ok_of (p : ℚ) (f : String) (dv : Nat) (now fp : Date) (r : ℚ)
    (hp : 0 < p) (hdv : dv ≠ 0) (hr : get_interest_rate f dv = .ok r)
    (hnext : calculate_next_payment_date now f = some fp) :
    calculate_loan p f dv now = .ok {
      principal_amount := p
      monthly_interest_rate := r
      annual_interest_rate := r * 12 * 100
      duration_value := dv
      duration_months := convert_to_months f dv
      repayment_frequency := f
      total_interest := p * r * convert_to_months f dv
      total_repayment := p + p * r * convert_to_months f dv
      installment_amount := (p + p * r * convert_to_months f dv) / (dv : ℚ)
      number_of_installments := dv
      first_payment_date := fp
      final_payment_date := calculate_final_payment_date now f dv
      outstanding_balance := p + p * r * convert_to_months f dv } := by
  unfold calculate_loan
  rw [if_neg (not_le.mpr hp), if_neg hdv]
  simp only [hr, hnext]

/-- A successful `calculate_loan` has a non-negative total repayment, equal
to the initial outstanding balance, and echoes the principal. -/
theorem calculate_loan_total_nonneg {p : ℚ} {f : String} {dv : Nat} {now : Date}
    {c : LoanCalc} (h : calculate_loan p f dv now = .ok c) :
    0 ≤ c.total_repayment ∧ c.outstanding_balance = c.total_repayment ∧
    c.principal_amount = p := by
  unfold calculate_loan at h
  by_cases h1 : p ≤ 0
  · rw [if_pos h1] at h; exact absurd h (by simp)
  · rw [if_neg h1] at h
    by_cases h2 : dv = 0
    · rw [if_pos h2] at h; exact absurd h (by simp)
    · rw [if_neg h2] at h
      cases hr : get_interest_rate f dv <;> simp only [hr] at h
      · exact absurd h (by simp)
      · rename_i r
        cases hn : calculate_next_payment_date now f <;> simp only [hn] at h
        · exact absurd h (by simp)
        · rename_i fp
          have hrn := rate_nonneg hr
          have hmn := convert_to_months_nonneg f dv
          have hp : 0 < p := not_le.mp h1
          rw [Except.ok.injEq] at h
          subst h
          refine ⟨?_, rfl, rfl⟩
          have hq : 0 ≤ p * r * convert_to_months f dv :=
            mul_nonneg (mul_nonneg hp.le hrn) hmn
          dsimp only
          linarith

/-- Success shape of `calculate_loan_details`: the result is the input with
the calculated fields overwritten from a successful `calculate_loan`. -/
theorem calculate_loan_details_ok {s : LoanState} {now : Date} {s2 : LoanState}
    (h : calculate_loan_details s now = .ok s2) :
    ∃ c, calculate_loan s.principal_amount s.repayment_frequency s.duration_value
        (s.disbursement_date.getD now) = .ok c ∧
      s2 = { s with
        monthly_interest_rate := c.monthly_interest_rate
        annual_interest_rate := c.annual_interest_rate
        duration_months := c.duration_months
        total_interest := c.total_interest
        total_repayment := c.total_repayment
        installment_amount := c.installment_amount
        number_of_installments := c.number_of_installments
        first_repayment_date := some c.first_payment_date
        final_repayment_date := some c.final_payment_date
        next_repayment_date := some c.first_payment_date } := by
  unfold calculate_loan_details at h
  split at h
  · exact absurd h (by simp)
  case _ c heq =>
    rw [Except.ok.injEq] at h
    exact ⟨c, heq, h.symm⟩

/-- A freshly created loan is pending, unpaid, and has its outstanding
balance initialised to the (non-negative) total repayment. -/
theorem createLoan_ok {p : ℚ} {f : String} {dv : Nat} {now : Date} {s : LoanState}
    (h : createLoan p f dv now = .ok s) :
    s.status = "pending_approval" ∧ s.amount_paid = 0 ∧
    s.outstanding_balance = s.total_repayment ∧ 0 ≤ s.total_repayment ∧
    s.principal_amount = p ∧ s.repayment_frequency = f ∧ s.duration_value = dv := by
  unfold createLoan at h
  dsimp only at h
  split at h
  · exact absurd h (by simp)
  case _ s1 heq =>
    obtain ⟨c, hc, hs1⟩ := calculate_loan_details_ok heq
    rw [Except.ok.injEq] at h
    subst h
    subst hs1
    obtain ⟨htot, -, -⟩ := calculate_loan_total_nonneg hc
    exact ⟨rfl, rfl, rfl, htot, rfl, rfl, rfl⟩

/-- For a valid frequency the rate lookup always succeeds. -/
theorem interestRate_valid_ok (f : String) (dv : Nat)
    (hf : f = "daily" ∨ f = "weekly" ∨ f = "monthly" ∨ f = "biweekly") :
    ∃ r, get_interest_rate f dv = .ok r := by
  have hts : ∃ ts, INTEREST_RATES f = some ts := by
    rcases hf with rfl | rfl | rfl | rfl
    · refine ⟨dailyTiers, ?_⟩; simp [INTEREST_RATES]
    · refine ⟨weeklyTiers, ?_⟩; simp [INTEREST_RATES]
    · refine ⟨monthlyTiers, ?_⟩; simp [INTEREST_RATES]
    · refine ⟨biweeklyTiers, ?_⟩; simp [INTEREST_RATES]
  obtain ⟨ts, hts⟩ := hts
  simp only [get_interest_rate, hts]
  cases h : lookupTier ts dv
  · exact ⟨_, rfl⟩
  · exact ⟨_, rfl⟩

/-- Case analysis of a non-raising `disburse` call: either the guard failed
(state unchanged) or the full disbursement effect took place. -/
theorem disburse_ok_cases {s : LoanState} {a : Nat} {now : Date} {r : Bool × String}
    {s2 : LoanState} (hd : disburse s a now = (.ok r, s2)) :
    (r.1 = false ∧ s2 = s) ∨
    (s.status = "approved" ∧ r = (true, "Loan disbursed successfully") ∧
      s2.status = "active" ∧ s2.amount_paid = s.amount_paid ∧
      s2.outstanding_balance = s2.total_repayment ∧ 0 ≤ s2.total_repayment ∧
      s2.disbursed_by = some a ∧ s2.disbursement_date = some now ∧
      s2.amount_disbursed = s.principal_amount) := by
  unfold disburse at hd
  split_ifs at hd with hc
  · rw [Prod.mk.injEq] at hd
    obtain ⟨hr1, hs2⟩ := hd
    rw [Except.ok.injEq] at hr1
    left
    rw [← hr1]
    exact ⟨rfl, hs2.symm⟩
  · dsimp only at hd
    split at hd
    · rw [Prod.mk.injEq] at hd
      exact absurd hd.1 (by simp)
    · rename_i s3 heq
      rw [Prod.mk.injEq] at hd
      obtain ⟨hr1, hs2⟩ := hd
      rw [Except.ok.injEq] at hr1
      obtain ⟨c, hc2, hs3⟩ := calculate_loan_details_ok heq
      obtain ⟨htot, -, -⟩ := calculate_loan_total_nonneg hc2
      subst hs2
      subst hs3
      exact Or.inr ⟨not_not.mp hc, hr1.symm, rfl, rfl, rfl, htot, rfl, rfl, rfl⟩

/-- Case analysis of a non-raising `record_repayment` call: the guards held,
the payment tracking was updated, and the loan either completed through the
epsilon clamp or stayed open with the exact decrement. -/
theorem record_repayment_ok_cases {s : LoanState} {amount : ℚ} {now : Date}
    {bal : ℚ} {s2 : LoanState}
    (hd : record_repayment s amount now = (.ok bal, s2)) :
    (s.status = "active" ∨ s.status = "overdue") ∧ 0 < amount ∧
    amount ≤ s.outstanding_balance ∧
    s2.amount_paid = s.amount_paid + amount ∧
    s2.total_repayment = s.total_repayment ∧
    bal = s2.outstanding_balance ∧
    ((s.outstanding_balance - amount ≤ (1/100 : ℚ) ∧ s2.outstanding_balance = 0 ∧
        s2.status = "completed" ∧ s2.completion_date = some now) ∨
      (¬(s.outstanding_balance - amount ≤ (1/100 : ℚ)) ∧
        s2.outstanding_balance = s.outstanding_balance - amount ∧
        (s2.status = "overdue" ∨ s2.status = "active"))) := by
  unfold record_repayment at hd
  by_cases h1 : s.status = "active" ∨ s.status = "overdue"
  case neg =>
    rw [if_pos h1] at hd
    rw [Prod.mk.injEq] at hd
    exact absurd hd.1 (by simp)
  case pos =>
    rw [if_neg (not_not_intro h1)] at hd
    by_cases h2 : amount ≤ 0
    · rw [if_pos h2] at hd
      rw [Prod.mk.injEq] at hd
      exact absurd hd.1 (by simp)
    · rw [if_neg h2] at hd
      by_cases h3 : s.outstanding_balance < amount
      · rw [if_pos h3] at hd
        rw [Prod.mk.injEq] at hd
        exact absurd hd.1 (by simp)
      · rw [if_neg h3] at hd
        dsimp only at hd
        split at hd
        · rw [Prod.mk.injEq] at hd
          exact absurd hd.1 (by simp)
        · rename_i nd heq
          split_ifs at hd with he hdb
          · rw [Prod.mk.injEq] at hd
            obtain ⟨hb, hs2⟩ := hd
            rw [Except.ok.injEq] at hb
            subst hs2
            exact ⟨h1, not_le.mp h2, not_lt.mp h3, rfl, rfl, hb.symm,
              Or.inl ⟨he, rfl, rfl, rfl⟩⟩
          · rw [Prod.mk.injEq] at hd
            obtain ⟨hb, hs2⟩ := hd
            rw [Except.ok.injEq] at hb
            subst hs2
            exact ⟨h1, not_le.mp h2, not_lt.mp h3, rfl, rfl, hb.symm,
              Or.inr ⟨he, rfl, Or.inl rfl⟩⟩
          · rw [Prod.mk.injEq] at hd
            obtain ⟨hb, hs2⟩ := hd
            rw [Except.ok.injEq] at hb
            subst hs2
            exact ⟨h1, not_le.mp h2, not_lt.mp h3, rfl, rfl, hb.symm,
              Or.inr ⟨he, rfl, Or.inr rfl⟩⟩

/-- Creation establishes the balance invariant. -/
theorem loanInv_create {p : ℚ} {f : String} {dv : Nat} {now : Date} {s : LoanState}
    (h : createLoan p f dv now = .ok s) : LoanInv s := by
  obtain ⟨hst, hpa, hob, htot, -, -, -⟩ := createLoan_ok h
  refine ⟨by rw [hpa], by rw [hpa]; exact htot, Or.inl ?_, fun _ => hpa⟩
  rw [hob, hpa]
  ring

/-- `approve` preserves the balance invariant. -/
theorem loanInv_approve {s : LoanState} (h : LoanInv s) (a : Nat) (now : Date) :
    LoanInv (approve s a now).state := by
  unfold approve
  split_ifs with hc
  · exact h
  · have hst : s.status = "pending_approval" := not_not.mp hc
    obtain ⟨h1, h2, h3, h4⟩ := h
    have hpa : s.amount_paid = 0 := h4 (Or.inl hst)
    refine ⟨h1, h2, ?_, fun _ => hpa⟩
    rcases h3 with h3 | h3
    · exact Or.inl h3
    · rw [hst] at h3
      exact absurd h3.1 (by decide)

/-- `reject` preserves the balance invariant. -/
theorem loanInv_reject {s : LoanState} (h : LoanInv s) (reason : String) :
    LoanInv (reject s reason).state := by
  unfold reject
  split_ifs with hc
  · exact h
  · have hst : s.status = "pending_approval" := not_not.mp hc
    obtain ⟨h1, h2, h3, h4⟩ := h
    have hpa : s.amount_paid = 0 := h4 (Or.inl hst)
    refine ⟨h1, h2, ?_, fun _ => hpa⟩
    rcases h3 with h3 | h3
    · exact Or.inl h3
    · rw [hst] at h3
      exact absurd h3.1 (by decide)

/-- A non-raising `disburse` preserves the balance invariant. -/
theorem loanInv_disburse {s : LoanState} {a : Nat} {now : Date} {r : Bool × String}
    {s2 : LoanState} (h : LoanInv s) (hd : disburse s a now = (.ok r, s2)) :
    LoanInv s2 := by
  rcases disburse_ok_cases hd with ⟨-, rfl⟩ | ⟨hst, -, hact, hpaid, hout, htot, -, -, -⟩
  · exact h
  · obtain ⟨h1, h2, h3, h4⟩ := h
    have hpa : s.amount_paid = 0 := h4 (Or.inr (Or.inl hst))
    refine ⟨by rw [hpaid, hpa], by rw [hpaid, hpa]; exact htot, Or.inl ?_,
      fun _ => by rw [hpaid, hpa]⟩
    rw [hout, hpaid, hpa]
    ring

/-- A non-raising `record_repayment` preserves the balance invariant. -/
theorem loanInv_repay {s : LoanState} {amount : ℚ} {now : Date} {bal : ℚ}
    {s2 : LoanState} (h : LoanInv s)
    (hd : record_repayment s amount now = (.ok bal, s2)) : LoanInv s2 := by
  obtain ⟨hstat, hpos, hle, hpaid, htot, -, hcases⟩ := record_repayment_ok_cases hd
  obtain ⟨h1, h2, h3, h4⟩ := h
  have hid : s.outstanding_balance = s.total_repayment - s.amount_paid := by
    rcases h3 with h3 | h3
    · exact h3
    · exfalso
      rcases hstat with hs | hs <;> rw [hs] at h3 <;> exact absurd h3.1 (by decide)
  refine ⟨by rw [hpaid]; linarith, by rw [hpaid, htot]; linarith, ?_, ?_⟩
  · rcases hcases with ⟨he, hzero, hcomp, -⟩ | ⟨he, hob, -⟩
    · refine Or.inr ⟨hcomp, hzero, ?_⟩
      rw [htot, hpaid]
      linarith
    · refine Or.inl ?_
      rw [hob, htot, hpaid, hid]
      ring
  · intro hmem
    rcases hcases with ⟨-, -, hcomp, -⟩ | ⟨-, -, hcomp⟩
    · rw [hcomp] at hmem
      rcases hmem with h | h | h <;> exact absurd h (by decide)
    · rcases hcomp with hcomp | hcomp <;> rw [hcomp] at hmem <;>
        rcases hmem with h | h | h <;> exact absurd h (by decide)

/-- Every reachable loan state satisfies the balance invariant. -/
theorem reachable_loanInv {s : LoanState} (h : Reachable s) : LoanInv s := by
  induction h with
  | created p f dv now s hc => exact loanInv_create hc
  | approved s a now _ ih => exact loanInv_approve ih a now
  | rejected s r _ ih => exact loanInv_reject ih r
  | disbursed s a now r s2 _ hd ih => exact loanInv_disburse ih hd
  | repaid s amount now bal s2 _ hd ih => exact loanInv_repay ih hd

/-- Every reachable loan state has one of the six assigned status values. -/
theorem reachable_status {s : LoanState} (h : Reachable s) :
    s.status = "pending_approval" ∨ s.status = "approved" ∨ s.status = "rejected" ∨
    s.status = "active" ∨ s.status = "overdue" ∨ s.status = "completed" := by
  induction h with
  | created p f dv now s hc => exact Or.inl (createLoan_ok hc).1
  | approved s a now _ ih =>
    unfold approve
    split_ifs with hc
    · exact ih
    · exact Or.inr (Or.inl rfl)
  | rejected s r _ ih =>
    unfold reject
    split_ifs with hc
    · exact ih
    · exact Or.inr (Or.inr (Or.inl rfl))
  | disbursed s a now r s2 _ hd ih =>
    rcases disburse_ok_cases hd with ⟨-, rfl⟩ | ⟨-, -, hact, -⟩
    · exact ih
    · exact Or.inr (Or.inr (Or.inr (Or.inl hact)))
  | repaid s amount now bal s2 _ hd ih =>
    obtain ⟨-, -, -, -, -, -, hcases⟩ := record_repayment_ok_cases hd
    rcases hcases with ⟨-, -, hstat, -⟩ | ⟨-, -, hstat⟩
    · exact Or.inr (Or.inr (Or.inr (Or.inr (Or.inr hstat))))
    · rcases hstat with hstat | hstat
      · exact Or.inr (Or.inr (Or.inr (Or.inr (Or.inl hstat))))
      · exact Or.inr (Or.inr (Or.inr (Or.inl hstat)))

/-- The creation step producing the daily sample loan. -/
theorem createLoan_daily : createLoan 50000 "daily" 30 sampleDate = .ok sampleDaily := by
  have hs := sampleDaily_eval
  rw [sampleDaily] at hs
  cases hc : createLoan 50000 "daily" 30 sampleDate with
  | error e =>
    rw [hc] at hs
    simp only [Except.toOption, Option.getD] at hs
    have hdv := congrArg LoanState.duration_value hs
    simp [defaultLoan] at hdv
  | ok s1 =>
    rw [hc] at hs
    simp only [Except.toOption, Option.getD] at hs
    rw [← sampleDaily_eval] at hs
    rw [hs]

/-- C2 (amended): after creation and after every successful lifecycle
operation, `0 ≤ amount_paid ≤ total_repayment`, and the identity
`outstanding_balance = total_repayment - amount_paid` holds — except that a
repayment triggering the 0.01 completion clamp leaves `outstanding_balance`
exactly 0 while `total_repayment - amount_paid` may remain positive, though
never above 0.01. -/
theorem balance_invariant (s : LoanState) (h : Reachable s) :
    0 ≤ s.amount_paid ∧ s.amount_paid ≤ s.total_repayment ∧
    (s.outstanding_balance = s.total_repayment - s.amount_paid ∨
      (s.status = "completed" ∧ s.outstanding_balance = 0 ∧
        s.total_repayment - s.amount_paid ≤ (1/100 : ℚ))) := by
  obtain ⟨h1, h2, h3, -⟩ := reachable_loanInv h
  exact ⟨h1, h2, h3⟩

/-- Witness for C2 (amended): the invariant holds at the freshly created
daily sample loan. -/
theorem balance_invariant_witness :
    0 ≤ sampleDaily.amount_paid ∧ sampleDaily.amount_paid ≤ sampleDaily.total_repayment ∧
    (sampleDaily.outstanding_balance = sampleDaily.total_repayment - sampleDaily.amount_paid ∨
      (sampleDaily.status = "completed" ∧ sampleDaily.outstanding_balance = 0 ∧
        sampleDaily.total_repayment - sampleDaily.amount_paid ≤ (1/100 : ℚ))) :=
  balance_invariant sampleDaily
    (Reachable.created 50000 "daily" 30 sampleDate sampleDaily createLoan_daily)

/-- C10: the declared status `disbursed` is never assigned — every reachable
loan has one of the other six statuses — and a successful `disburse` moves an
approved loan directly to `active`. -/
theorem status_disbursed_unreachable :
    (∀ s : LoanState, Reachable s → s.status ≠ "disbursed" ∧
      (s.status = "pending_approval" ∨ s.status = "approved" ∨ s.status = "rejected" ∨
       s.status = "active" ∨ s.status = "overdue" ∨ s.status = "completed")) ∧
    (∀ (s : LoanState) (a : Nat) (d : Date) (m : String) (s2 : LoanState),
      disburse s a d = (.ok (true, m), s2) → s2.status = "active") := by
  constructor
  · intro s h
    have hm := reachable_status h
    refine ⟨?_, hm⟩
    rcases hm with h | h | h | h | h | h <;> rw [h] <;> decide
  · intro s a d m s2 hd
    rcases disburse_ok_cases hd with ⟨hfalse, -⟩ | ⟨-, -, hact, -⟩
    · exact absurd hfalse (by simp)
    · exact hact

/-- Witness for C10: the daily sample loan is reachable and its status is not
`disbursed`. -/
theorem status_disbursed_unreachable_witness :
    sampleDaily.status ≠ "disbursed" ∧
    (sampleDaily.status = "pending_approval" ∨ sampleDaily.status = "approved" ∨
     sampleDaily.status = "rejected" ∨ sampleDaily.status = "active" ∨
     sampleDaily.status = "overdue" ∨ sampleDaily.status = "completed") :=
  status_disbursed_unreachable.1 sampleDaily
    (Reachable.created 50000 "daily" 30 sampleDate sampleDaily createLoan_daily)

/-- C3 (amended): for an active/overdue loan and a valid amount,
`record_repayment` adds the amount to `amount_paid`, advances
`next_repayment_date` by one period — provided that advance is representable
(for monthly frequency the day-of-month must exist in the following month;
otherwise the call raises, see the counterexample) — and then either clamps
to completion when the residual is within 0.01, or sets the status from the
comparison of the new `next_repayment_date` with the current date. -/
theorem record_repayment_updates (s : LoanState) (amount : ℚ) (now nd : Date)
    (hst : s.status = "active" ∨ s.status = "overdue") (h0 : 0 < amount)
    (hle : amount ≤ s.outstanding_balance)
    (hnext : calculate_next_payment_date (s.next_repayment_date.getD now)
      s.repayment_frequency = some nd) :
    ∃ s2, record_repayment s amount now = (.ok s2.outstanding_balance, s2) ∧
      s2.amount_paid = s.amount_paid + amount ∧
      s2.next_repayment_date = some nd ∧
      s2.total_repayment = s.total_repayment ∧
      (s.outstanding_balance - amount ≤ (1/100 : ℚ) →
        s2.outstanding_balance = 0 ∧ s2.status = "completed" ∧
          s2.completion_date = some now) ∧
      (¬(s.outstanding_balance - amount ≤ (1/100 : ℚ)) →
        s2.outstanding_balance = s.outstanding_balance - amount ∧
          s2.status = (if dateBefore nd now then "overdue" else "active")) := by
  unfold record_repayment
  rw [if_neg (not_not_intro hst), if_neg (not_le.mpr h0), if_neg (not_lt.mpr hle)]
  dsimp only
  rw [hnext]
  dsimp only
  by_cases he : s.outstanding_balance - amount ≤ (1/100 : ℚ)
  · rw [if_pos he]
    exact ⟨{ s with
        amount_paid := s.amount_paid + amount
        outstanding_balance := 0
        status := "completed"
        completion_date := some now
        next_repayment_date := some nd },
      rfl, rfl, rfl, rfl, fun _ => ⟨rfl, rfl, rfl⟩, fun hc => absurd he hc⟩
  · rw [if_neg he]
    refine ⟨if dateBefore nd now then
        { s with
          amount_paid := s.amount_paid + amount
          outstanding_balance := s.outstanding_balance - amount
          next_repayment_date := some nd
          status := "overdue" }
      else
        { s with
          amount_paid := s.amount_paid + amount
          outstanding_balance := s.outstanding_balance - amount
          next_repayment_date := some nd
          status := "active" },
      ?_, ?_, ?_, ?_, fun hc => absurd hc he, fun _ => ⟨?_, ?_⟩⟩ <;>
      cases hdb : dateBefore nd now <;> simp

/-- Witness for C3 (amended): a 1000-unit repayment on the active daily
sample loan. -/
theorem record_repayment_updates_witness :
    ∃ s2, record_repayment sampleDailyActive 1000 sampleDate =
        (.ok s2.outstanding_balance, s2) ∧
      s2.amount_paid = sampleDailyActive.amount_paid + 1000 ∧
      s2.next_repayment_date = some ⟨2025, 1, 3⟩ ∧
      s2.total_repayment = sampleDailyActive.total_repayment ∧
      (sampleDailyActive.outstanding_balance - 1000 ≤ (1/100 : ℚ) →
        s2.outstanding_balance = 0 ∧ s2.status = "completed" ∧
          s2.completion_date = some sampleDate) ∧
      (¬(sampleDailyActive.outstanding_balance - 1000 ≤ (1/100 : ℚ)) →
        s2.outstanding_balance = sampleDailyActive.outstanding_balance - 1000 ∧
          s2.status = (if dateBefore ⟨2025, 1, 3⟩ sampleDate then "overdue"
            else "active")) :=
  record_repayment_updates sampleDailyActive 1000 sampleDate ⟨2025, 1, 3⟩
    (Or.inl (by rw [sampleDailyActive_eval]))
    (by norm_num)
    (by rw [sampleDailyActive_eval]; norm_num)
    (by rw [sampleDailyActive_eval]; decide)

/-- C6 (amended): disbursing an approved loan records the disburser and the
disbursement date, sets `amount_disbursed` to the principal, re-runs the full
loan calculation anchored to the disbursement date (the repayment dates
derive from it, the terms are unchanged) and resets the outstanding balance
to the freshly computed total repayment — provided the recomputed first
payment date is representable (for monthly frequency the disbursement
day-of-month must exist in the following month; otherwise the call raises,
see the counterexample). -/
theorem disburse_reanchors (s : LoanState) (a : Nat) (now fp : Date)
    (hst : s.status = "approved") (hp : 0 < s.principal_amount)
    (hdv : s.duration_value ≠ 0)
    (hf : s.repayment_frequency = "daily" ∨ s.repayment_frequency = "weekly" ∨
      s.repayment_frequency = "monthly" ∨ s.repayment_frequency = "biweekly")
    (hnext : calculate_next_payment_date now s.repayment_frequency = some fp) :
    ∃ c s2,
      calculate_loan s.principal_amount s.repayment_frequency s.duration_value now =
        .ok c ∧
      disburse s a now = (.ok (true, "Loan disbursed successfully"), s2) ∧
      s2.status = "active" ∧
      s2.disbursed_by = some a ∧
      s2.disbursement_date = some now ∧
      s2.amount_disbursed = s.principal_amount ∧
      s2.principal_amount = s.principal_amount ∧
      s2.repayment_frequency = s.repayment_frequency ∧
      s2.duration_value = s.duration_value ∧
      s2.amount_paid = s.amount_paid ∧
      s2.monthly_interest_rate = c.monthly_interest_rate ∧
      s2.total_interest = c.total_interest ∧
      s2.total_repayment = c.total_repayment ∧
      s2.installment_amount = c.installment_amount ∧
      s2.first_repayment_date = some c.first_payment_date ∧
      s2.next_repayment_date = some c.first_payment_date ∧
      s2.final_repayment_date = some c.final_payment_date ∧
      c.first_payment_date = fp ∧
      c.final_payment_date =
        calculate_final_payment_date now s.repayment_frequency s.duration_value ∧
      s2.outstanding_balance = c.total_repayment := by
  obtain ⟨r, hr⟩ := interestRate_valid_ok s.repayment_frequency s.duration_value hf
  have hcalc := calculate_loan_ok_of s.principal_amount s.repayment_frequency
    s.duration_value now fp r hp hdv hr hnext
  have hstep : disburse s a now = (.ok (true, "Loan disbursed successfully"),
      { s with
        status := "active"
        disbursed_by := some a
        disbursement_date := some now
        amount_disbursed := s.principal_amount
        monthly_interest_rate := r
        annual_interest_rate := r * 12 * 100
        duration_months := convert_to_months s.repayment_frequency s.duration_value
        total_interest := s.principal_amount * r *
          convert_to_months s.repayment_frequency s.duration_value
        total_repayment := s.principal_amount + s.principal_amount * r *
          convert_to_months s.repayment_frequency s.duration_value
        installment_amount := (s.principal_amount + s.principal_amount * r *
          convert_to_months s.repayment_frequency s.duration_value) / (s.duration_value : ℚ)
        number_of_installments := s.duration_value
        first_repayment_date := some fp
        final_repayment_date :=
          some (calculate_final_payment_date now s.repayment_frequency s.duration_value)
        next_repayment_date := some fp
        outstanding_balance := s.principal_amount + s.principal_amount * r *
          convert_to_months s.repayment_frequency s.duration_value }) := by
    unfold disburse
    rw [if_neg (not_not_intro hst)]
    unfold calculate_loan_details
    dsimp only [Option.getD]
    rw [hcalc]
  exact ⟨_, _, hcalc, hstep, rfl, rfl, rfl, rfl, rfl, rfl, rfl, rfl, rfl, rfl,
    rfl, rfl, rfl, rfl, rfl, rfl, rfl, rfl⟩

/-- Witness for C6 (amended): disbursing the approved monthly sample loan on
2025-01-01. -/
theorem disburse_reanchors_witness :
    ∃ c s2,
      calculate_loan sampleMonthlyApproved.principal_amount
        sampleMonthlyApproved.repayment_frequency
        sampleMonthlyApproved.duration_value sampleDate = .ok c ∧
      disburse sampleMonthlyApproved 9 sampleDate =
        (.ok (true, "Loan disbursed successfully"), s2) ∧
      s2.status = "active" ∧
      s2.disbursed_by = some 9 ∧
      s2.disbursement_date = some sampleDate ∧
      s2.amount_disbursed = sampleMonthlyApproved.principal_amount ∧
      s2.principal_amount = sampleMonthlyApproved.principal_amount ∧
      s2.repayment_frequency = sampleMonthlyApproved.repayment_frequency ∧
      s2.duration_value = sampleMonthlyApproved.duration_value ∧
      s2.amount_paid = sampleMonthlyApproved.amount_paid ∧
      s2.monthly_interest_rate = c.monthly_interest_rate ∧
      s2.total_interest = c.total_interest ∧
      s2.total_repayment = c.total_repayment ∧
      s2.installment_amount = c.installment_amount ∧
      s2.first_repayment_date = some c.first_payment_date ∧
      s2.next_repayment_date = some c.first_payment_date ∧
      s2.final_repayment_date = some c.final_payment_date ∧
      c.first_payment_date = ⟨2025, 2, 1⟩ ∧
      c.final_payment_date = calculate_final_payment_date sampleDate
        sampleMonthlyApproved.repayment_frequency
        sampleMonthlyApproved.duration_value ∧
      s2.outstanding_balance = c.total_repayment :=
  disburse_reanchors sampleMonthlyApproved 9 sampleDate ⟨2025, 2, 1⟩
    (by rw [sampleMonthlyApproved_eval])
    (by rw [sampleMonthlyApproved_eval]; norm_num)
    (by rw [sampleMonthlyApproved_eval]; decide)
    (Or.inr (Or.inr (Or.inl (by rw [sampleMonthlyApproved_eval]))))
    (by rw [sampleMonthlyApproved_eval]; decide)

end Seashore
